import Mathlib

/-!
Shallow embedding of the gas-meter reading pipeline from
`internal/genai/genai.go` (package `genai`).

Go strings are modelled as `List Char` (Go's `for _, c := range s` iterates
runes, and every string handled here is compared rune-by-rune).  The two
external collaborators — the media stager (`Files.Upload` / `Files.Delete`)
and the inference gateway (`genkit.GenerateData` / `genkit.Generate`) — are
modelled as oracle fields of an `Env`; each remote interaction is recorded
in an event trace so that call counts, call arguments and call ordering can
be stated.  The single mutable field `Client.lastRead` is threaded
explicitly: `ReadGasGuagePic` returns the updated client next to its
result, and the assignment `c.lastRead = out.Read` is additionally recorded
as a `setLastRead` trace event at the program point where it happens (the
deferred `Files.Delete` runs after it, on function exit).
-/

/-- Go strings, viewed as their rune sequence. -/
abbrev Str := List Char

/-- Rune sequence of a Lean string literal. -/
def lit (s : String) : Str := s.toList

/-- Embeds `containsOnly` (genai.go): `for _, c := range s { if
!strings.Contains(chars, string(c)) { return false } }; return true`.
For the single-rune needles used here, Go substring containment coincides
with rune membership. -/
def containsOnly (s chars : Str) : Bool :=
  s.all (fun c => chars.contains c)

/-- The allowed-character set passed to `containsOnly` by
`guessAmbiouousDigits`: the Go literal `".?0123456789"`. -/
def allowedChars : Str := lit ".?0123456789"

/-- The handle returned by `Files.Upload`: the fields of `*genai.File`
that the pipeline reads (`file.Name`, `file.URI`). -/
structure FileRef where
  name : Str
  uri : Str
deriving DecidableEq

/-- Embeds `GasMeterReadResult` (genai.go).  `ReadAt` (`time.Time`) is an
abstract instant, `ItTakes` the formatted duration string. -/
structure GasMeterReadResult where
  Read : Str
  Date : Str
  ReadAt : Nat
  ItTakes : Str
deriving DecidableEq

/-- Embeds the `Client` struct fields the pipeline logic reads or writes
(the transport handles `g`, `c` live inside `Env`). -/
structure Client where
  model : Str
  systemPrompt : Str
  promptForImg : Str
  lastRead : Str
deriving DecidableEq

/-- One remote interaction or state write, in program order. -/
inductive Event where
  | upload : Event
  | genData : Str → Str → Str → Event
  | genText : Str → Event
  | setLastRead : Str → Event
  | fileDelete : Str → Event
deriving DecidableEq

/-- Oracle for the run: outcomes of the external calls (`Files.Upload`,
`GenerateData`, `Generate`, `Files.Delete`) and of the clock reads.
`genDataResult` carries the structured `(read, date)` pair. -/
structure Env where
  uploadResult : Except Str FileRef
  genDataResult : Except Str (Str × Str)
  genTextResult : Str → Except Str Str
  deleteResult : Str → Except Str Unit
  elapsedStr : Str
  nowTime : Nat

/-- First literal segment of the Go constant `fixAmbiguousPromptFmt`,
up to the first `%s`. -/
def promptPartA : Str := lit "The value “"

/-- Segment of `fixAmbiguousPromptFmt` between the two `%s` verbs. -/
def promptPartB : Str :=
  lit "” represents the output of a analog-meter-reading analysis performed on an image.\nUncertain digits within the reading are denoted by the “?” character.\n\nUsing the previously recorded meter value \""

/-- Segment of `fixAmbiguousPromptFmt` after the second `%s`. -/
def promptPartC : Str :=
  lit "\" as a reference (only if it is not empty),\ninfer and replace the “?” characters to estimate the most probable complete reading.\n\nInstructions:\n- Return a string with the exact same length as the input value.\n- Output only the predicted value, without any explanations or additional text.\n"

/-- `fmt.Sprintf(fixAmbiguousPromptFmt, ambiguousValueString, c.lastRead)`. -/
def fixAmbiguousPrompt (ambiguousValueString lastRead : Str) : Str :=
  promptPartA ++ ambiguousValueString ++ promptPartB ++ lastRead ++ promptPartC

/-- `fmt.Errorf("failed to upload: %v", err)`. -/
def errUpload (e : Str) : Str := lit "failed to upload: " ++ e

/-- `fmt.Errorf("failed to analyze: %v", err)`. -/
def errAnalyze (e : Str) : Str := lit "failed to analyze: " ++ e

/-- `fmt.Errorf("failed to guess ambiguous digits: %v", err)`. -/
def errGuess (e : Str) : Str := lit "failed to guess ambiguous digits: " ++ e

/-- `fmt.Errorf("ambious value string, %s is not valid", ambiguousValueString)`. -/
def errInvalid (s : Str) : Str :=
  lit "ambious value string, " ++ s ++ lit " is not valid"

/-- `fmt.Errorf("failed to generate: %v", err)`. -/
def errGenerate (e : Str) : Str := lit "failed to generate: " ++ e

/-- Embeds `(*Client).guessAmbiouousDigits`: validate the ambiguous string
against `".?0123456789"`, then issue one text-only `genkit.Generate` call
whose prompt interpolates the ambiguous string and `c.lastRead`, and return
the raw `resp.Text()`.  The second component is the trace of gateway calls
made. -/
def guessAmbiouousDigits (env : Env) (c : Client) (ambiguousValueString : Str) :
    Except Str Str × List Event :=
  if ! containsOnly ambiguousValueString allowedChars then
    (Except.error (errInvalid ambiguousValueString), [])
  else
    let prompt := fixAmbiguousPrompt ambiguousValueString c.lastRead
    match env.genTextResult prompt with
    | Except.error e => (Except.error (errGenerate e), [Event.genText prompt])
    | Except.ok t => (Except.ok t, [Event.genText prompt])

/-- Embeds `(*Client).ReadGasGuagePic`: upload the image, schedule the
deferred `Files.Delete(file.Name)` (its error is discarded), issue the
structured extraction call, on a `?` in the returned reading delegate to
`guessAmbiouousDigits`, stamp `ItTakes`/`ReadAt`, assign `c.lastRead`, and
return.  Returns the result, the updated client, and the event trace in
program order (the deferred delete last). -/
def ReadGasGuagePic (env : Env) (c : Client) :
    Except Str GasMeterReadResult × Client × List Event :=
  match env.uploadResult with
  | Except.error e => (Except.error (errUpload e), c, [Event.upload])
  | Except.ok file =>
    match env.genDataResult with
    | Except.error e =>
        (Except.error (errAnalyze e), c,
          [Event.upload, Event.genData c.systemPrompt file.uri c.promptForImg,
           Event.fileDelete file.name])
    | Except.ok rd =>
        if rd.1.contains '?' then
          let g := guessAmbiouousDigits env c rd.1
          match g.1 with
          | Except.error e =>
              (Except.error (errGuess e), c,
                [Event.upload, Event.genData c.systemPrompt file.uri c.promptForImg]
                  ++ g.2 ++ [Event.fileDelete file.name])
          | Except.ok newRead =>
              (Except.ok ⟨newRead, rd.2, env.nowTime, env.elapsedStr⟩,
                ⟨c.model, c.systemPrompt, c.promptForImg, newRead⟩,
                [Event.upload, Event.genData c.systemPrompt file.uri c.promptForImg]
                  ++ g.2
                  ++ [Event.setLastRead newRead, Event.fileDelete file.name])
        else
          (Except.ok ⟨rd.1, rd.2, env.nowTime, env.elapsedStr⟩,
            ⟨c.model, c.systemPrompt, c.promptForImg, rd.1⟩,
            [Event.upload, Event.genData c.systemPrompt file.uri c.promptForImg,
             Event.setLastRead rd.1, Event.fileDelete file.name])

/-- Recognizes a resolution (text-inference) call in a trace. -/
def isGenTextEv : Event → Bool
  | Event.genText _ => true
  | _ => false

/-- Recognizes a `Files.Delete` disposal call in a trace. -/
def isDeleteEv : Event → Bool
  | Event.fileDelete _ => true
  | _ => false

/-- Recognizes a write to `Client.lastRead` in a trace. -/
def isSetEv : Event → Bool
  | Event.setLastRead _ => true
  | _ => false


theorem guess_invalid (env : Env) (c : Client) (s : Str)
    (hv : containsOnly s allowedChars = false) :
    guessAmbiouousDigits env c s = (Except.error (errInvalid s), []) := by
  simp [guessAmbiouousDigits, hv]

theorem guess_ok (env : Env) (c : Client) (s t : Str)
    (hv : containsOnly s allowedChars = true)
    (ht : env.genTextResult (fixAmbiguousPrompt s c.lastRead) = Except.ok t) :
    guessAmbiouousDigits env c s =
      (Except.ok t, [Event.genText (fixAmbiguousPrompt s c.lastRead)]) := by
  simp [guessAmbiouousDigits, hv, ht]

theorem guess_err (env : Env) (c : Client) (s e : Str)
    (hv : containsOnly s allowedChars = true)
    (ht : env.genTextResult (fixAmbiguousPrompt s c.lastRead) = Except.error e) :
    guessAmbiouousDigits env c s =
      (Except.error (errGenerate e), [Event.genText (fixAmbiguousPrompt s c.lastRead)]) := by
  simp [guessAmbiouousDigits, hv, ht]

theorem guess_trace (env : Env) (c : Client) (s : Str) :
    (guessAmbiouousDigits env c s).2 =
      if containsOnly s allowedChars = true
      then [Event.genText (fixAmbiguousPrompt s c.lastRead)] else [] := by
  cases hv : containsOnly s allowedChars with
  | false => simp [guess_invalid env c s hv, hv]
  | true =>
    cases ht : env.genTextResult (fixAmbiguousPrompt s c.lastRead) with
    | error e => simp [guess_err env c s e hv ht, hv]
    | ok t => simp [guess_ok env c s t hv ht, hv]

theorem run_upload_err (env : Env) (c : Client) (e : Str)
    (hu : env.uploadResult = Except.error e) :
    ReadGasGuagePic env c = (Except.error (errUpload e), c, [Event.upload]) := by
  simp [ReadGasGuagePic, hu]

theorem run_data_err (env : Env) (c : Client) (f : FileRef) (e : Str)
    (hu : env.uploadResult = Except.ok f)
    (hd : env.genDataResult = Except.error e) :
    ReadGasGuagePic env c = (Except.error (errAnalyze e), c,
      [Event.upload, Event.genData c.systemPrompt f.uri c.promptForImg,
       Event.fileDelete f.name]) := by
  simp [ReadGasGuagePic, hu, hd]

theorem run_noq (env : Env) (c : Client) (f : FileRef) (rd : Str × Str)
    (hu : env.uploadResult = Except.ok f)
    (hd : env.genDataResult = Except.ok rd)
    (hq : rd.1.contains '?' = false) :
    ReadGasGuagePic env c =
      (Except.ok ⟨rd.1, rd.2, env.nowTime, env.elapsedStr⟩,
       ⟨c.model, c.systemPrompt, c.promptForImg, rd.1⟩,
       [Event.upload, Event.genData c.systemPrompt f.uri c.promptForImg,
        Event.setLastRead rd.1, Event.fileDelete f.name]) := by
  have hq' : ¬ ('?' ∈ rd.1) := by simpa using hq
  simp [ReadGasGuagePic, hu, hd, hq']

theorem run_q_err (env : Env) (c : Client) (f : FileRef) (rd : Str × Str) (e : Str)
    (hu : env.uploadResult = Except.ok f)
    (hd : env.genDataResult = Except.ok rd)
    (hq : rd.1.contains '?' = true)
    (hg : (guessAmbiouousDigits env c rd.1).1 = Except.error e) :
    ReadGasGuagePic env c =
      (Except.error (errGuess e), c,
       [Event.upload, Event.genData c.systemPrompt f.uri c.promptForImg]
         ++ (guessAmbiouousDigits env c rd.1).2 ++ [Event.fileDelete f.name]) := by
  have hq' : '?' ∈ rd.1 := by simpa using hq
  simp [ReadGasGuagePic, hu, hd, hq', hg]

theorem run_q_ok (env : Env) (c : Client) (f : FileRef) (rd : Str × Str) (v : Str)
    (hu : env.uploadResult = Except.ok f)
    (hd : env.genDataResult = Except.ok rd)
    (hq : rd.1.contains '?' = true)
    (hg : (guessAmbiouousDigits env c rd.1).1 = Except.ok v) :
    ReadGasGuagePic env c =
      (Except.ok ⟨v, rd.2, env.nowTime, env.elapsedStr⟩,
       ⟨c.model, c.systemPrompt, c.promptForImg, v⟩,
       [Event.upload, Event.genData c.systemPrompt f.uri c.promptForImg]
         ++ (guessAmbiouousDigits env c rd.1).2
         ++ [Event.setLastRead v, Event.fileDelete f.name]) := by
  have hq' : '?' ∈ rd.1 := by simpa using hq
  simp [ReadGasGuagePic, hu, hd, hq', hg]

theorem guess_congr (env env2 : Env) (c : Client)
    (h3 : env2.genTextResult = env.genTextResult) (s : Str) :
    guessAmbiouousDigits env2 c s = guessAmbiouousDigits env c s := by
  simp only [guessAmbiouousDigits, h3]

theorem run_congr (env env2 : Env) (c : Client)
    (h1 : env2.uploadResult = env.uploadResult)
    (h2 : env2.genDataResult = env.genDataResult)
    (h3 : env2.genTextResult = env.genTextResult)
    (h4 : env2.elapsedStr = env.elapsedStr)
    (h5 : env2.nowTime = env.nowTime) :
    ReadGasGuagePic env2 c = ReadGasGuagePic env c := by
  simp only [ReadGasGuagePic, h1, h2, h4, h5, guess_congr env env2 c h3]

deriving instance DecidableEq for Except

/-- Concrete staged-file handle used in the concrete runs below. -/
def fileW : FileRef := ⟨lit "files/gauge1", lit "uri://gauge1"⟩

/-- Concrete client whose previous confirmed reading is `"123.4"`. -/
def clientW : Client := ⟨lit "gemini", lit "sys", lit "img", lit "123.4"⟩

/-- Concrete run: extraction yields the ambiguous `"12?.5"`, the resolution
call answers `"128.5"` (the spec's own scenario example). -/
def envSuccess : Env :=
  ⟨Except.ok fileW, Except.ok (lit "12?.5", lit "2024-01-01"),
   fun _ => Except.ok (lit "128.5"), fun _ => Except.ok (), lit "1.2s", 5⟩

/-- Concrete run: extraction yields the unambiguous `"100.2"`. -/
def envNoQ : Env :=
  ⟨Except.ok fileW, Except.ok (lit "100.2", lit "2024-01-01"),
   fun _ => Except.ok (lit "128.5"), fun _ => Except.ok (), lit "1.2s", 5⟩

/-- Concrete run: extraction yields `"1?"` and the resolution call answers
with a string that itself still contains the marker `"9?"`. -/
def envEchoQ : Env :=
  ⟨Except.ok fileW, Except.ok (lit "1?", lit "d"),
   fun _ => Except.ok (lit "9?"), fun _ => Except.ok (), lit "1s", 5⟩

/-- Concrete run: extraction yields `"?a"` — it contains the marker and an
out-of-alphabet character. -/
def envBadChar : Env :=
  ⟨Except.ok fileW, Except.ok (lit "?a", lit "d"),
   fun _ => Except.ok (lit "99"), fun _ => Except.ok (), lit "1s", 5⟩

/-- Concrete run: extraction yields `"1?"` and the resolution call fails. -/
def envGenErr : Env :=
  ⟨Except.ok fileW, Except.ok (lit "1?", lit "d"),
   fun _ => Except.error (lit "boom"), fun _ => Except.ok (), lit "1s", 5⟩

/-- Concrete run: the upload itself fails. -/
def envUploadErr : Env :=
  ⟨Except.error (lit "network down"), Except.ok (lit "100.2", lit "d"),
   fun _ => Except.ok (lit "128.5"), fun _ => Except.ok (), lit "1s", 5⟩

/-- Concrete run: extraction yields `"12?.5"`, the resolution call answers
raw text with spaces, a newline, and letters — nothing trims or checks it. -/
def envRawText : Env :=
  ⟨Except.ok fileW, Except.ok (lit "12?.5", lit "d"),
   fun _ => Except.ok (lit " not a number\n"), fun _ => Except.ok (), lit "1s", 5⟩

/-- `envSuccess` with a failing disposal call. -/
def envDelFail : Env :=
  ⟨Except.ok fileW, Except.ok (lit "12?.5", lit "2024-01-01"),
   fun _ => Except.ok (lit "128.5"), fun _ => Except.error (lit "cleanup failed"),
   lit "1.2s", 5⟩


theorem run_invalid (env : Env) (c : Client) (f : FileRef) (rd : Str × Str)
    (hu : env.uploadResult = Except.ok f)
    (hd : env.genDataResult = Except.ok rd)
    (hq : rd.1.contains '?' = true)
    (hv : containsOnly rd.1 allowedChars = false) :
    ReadGasGuagePic env c =
      (Except.error (errGuess (errInvalid rd.1)), c,
       [Event.upload, Event.genData c.systemPrompt f.uri c.promptForImg,
        Event.fileDelete f.name]) := by
  rw [run_q_err env c f rd (errInvalid rd.1) hu hd hq
        (by rw [guess_invalid env c rd.1 hv])]
  simp [guess_invalid env c rd.1 hv]

theorem run_genErr (env : Env) (c : Client) (f : FileRef) (rd : Str × Str) (e : Str)
    (hu : env.uploadResult = Except.ok f)
    (hd : env.genDataResult = Except.ok rd)
    (hq : rd.1.contains '?' = true)
    (hv : containsOnly rd.1 allowedChars = true)
    (ht : env.genTextResult (fixAmbiguousPrompt rd.1 c.lastRead) = Except.error e) :
    ReadGasGuagePic env c =
      (Except.error (errGuess (errGenerate e)), c,
       [Event.upload, Event.genData c.systemPrompt f.uri c.promptForImg,
        Event.genText (fixAmbiguousPrompt rd.1 c.lastRead),
        Event.fileDelete f.name]) := by
  rw [run_q_err env c f rd (errGenerate e) hu hd hq
        (by rw [guess_err env c rd.1 e hv ht])]
  simp [guess_err env c rd.1 e hv ht]

theorem run_resolved (env : Env) (c : Client) (f : FileRef) (rd : Str × Str) (t : Str)
    (hu : env.uploadResult = Except.ok f)
    (hd : env.genDataResult = Except.ok rd)
    (hq : rd.1.contains '?' = true)
    (hv : containsOnly rd.1 allowedChars = true)
    (ht : env.genTextResult (fixAmbiguousPrompt rd.1 c.lastRead) = Except.ok t) :
    ReadGasGuagePic env c =
      (Except.ok ⟨t, rd.2, env.nowTime, env.elapsedStr⟩,
       ⟨c.model, c.systemPrompt, c.promptForImg, t⟩,
       [Event.upload, Event.genData c.systemPrompt f.uri c.promptForImg,
        Event.genText (fixAmbiguousPrompt rd.1 c.lastRead),
        Event.setLastRead t, Event.fileDelete f.name]) := by
  rw [run_q_ok env c f rd t hu hd hq (by rw [guess_ok env c rd.1 t hv ht])]
  simp [guess_ok env c rd.1 t hv ht]

/-- Claim C2: any character of the disambiguator input outside the alphabet
`{'.', '0'..'9', '?'}` yields the invalid-input error with an empty call
trace (no inference-gateway call), while an input made only of allowed
characters passes validation and issues exactly the one inference call. -/
theorem c2_alphabet_validation (env : Env) (c : Client) (s : Str) :
    (guessAmbiouousDigits env c s).2 =
      (if containsOnly s allowedChars = true
       then [Event.genText (fixAmbiguousPrompt s c.lastRead)] else []) ∧
    (containsOnly s allowedChars = false →
       guessAmbiouousDigits env c s = (Except.error (errInvalid s), [])) :=
  ⟨guess_trace env c s, fun hv => guess_invalid env c s hv⟩

/-- Witness for C2: the spec's own example input `"12a.5"` is rejected with
the invalid-input error and an empty call trace. -/
theorem c2_witness :
    containsOnly (lit "12a.5") allowedChars = false ∧
    guessAmbiouousDigits envSuccess clientW (lit "12a.5") =
      (Except.error (errInvalid (lit "12a.5")), []) :=
  ⟨by decide,
   (c2_alphabet_validation envSuccess clientW (lit "12a.5")).2 (by decide)⟩

/-- Claim C10: `containsOnly s chars` is true exactly when every character
of `s` occurs in `chars`; the empty string therefore passes, and the
disambiguator called on the empty string proceeds to the inference call. -/
theorem c10_containsOnly_characterization (s chars : Str) (env : Env) (c : Client) :
    (containsOnly s chars = true ↔ ∀ ch ∈ s, ch ∈ chars) ∧
    containsOnly [] chars = true ∧
    (guessAmbiouousDigits env c []).2 =
      [Event.genText (fixAmbiguousPrompt [] c.lastRead)] := by
  refine ⟨?_, rfl, ?_⟩
  · simp [containsOnly]
  · simp [guess_trace, containsOnly]

/-- Witness for C10 exercising the theorem at a concrete input: the empty
string passes validation and the inference call is issued. -/
theorem c10_witness :
    containsOnly [] allowedChars = true ∧
    (guessAmbiouousDigits envSuccess clientW []).2 =
      [Event.genText (fixAmbiguousPrompt [] clientW.lastRead)] :=
  ⟨(c10_containsOnly_characterization [] allowedChars envSuccess clientW).2.1,
   (c10_containsOnly_characterization [] allowedChars envSuccess clientW).2.2⟩

/-- Counterexample to C1 as stated: extraction returns `"1?"`, the
resolution call answers `"9?"`, and `ReadGasGuagePic` succeeds with a
reading that still contains the uncertainty marker — the resolved string is
installed verbatim with no re-validation. -/
theorem c1_counterexample :
    (ReadGasGuagePic envEchoQ clientW).1 =
      Except.ok ⟨lit "9?", lit "d", 5, lit "1s"⟩ ∧
    (lit "9?").contains '?' = true := by decide

/-- Claim C1 (amended): for every successful run, provided the resolution
response (the text the gateway returns for the resolution prompt) contains
no `?`, the returned `reading` contains no `?`. -/
theorem c1_no_marker_on_success (env : Env) (c : Client) (f : FileRef)
    (rd : Str × Str) (t : Str) (r : GasMeterReadResult)
    (hu : env.uploadResult = Except.ok f)
    (hd : env.genDataResult = Except.ok rd)
    (ht : env.genTextResult (fixAmbiguousPrompt rd.1 c.lastRead) = Except.ok t)
    (htq : t.contains '?' = false)
    (hr : (ReadGasGuagePic env c).1 = Except.ok r) :
    r.Read.contains '?' = false := by
  cases hq : rd.1.contains '?' with
  | false =>
    rw [run_noq env c f rd hu hd hq] at hr
    simp only [Except.ok.injEq] at hr
    subst hr
    simpa using hq
  | true =>
    cases hv : containsOnly rd.1 allowedChars with
    | false =>
      rw [run_invalid env c f rd hu hd hq hv] at hr
      simp at hr
    | true =>
      rw [run_resolved env c f rd t hu hd hq hv ht] at hr
      simp only [Except.ok.injEq] at hr
      subst hr
      simpa using htq

/-- Witness for C1: the spec's scenario — extraction `"12?.5"`, resolution
answer `"128.5"` — succeeds and the final reading has no marker. -/
theorem c1_witness :
    envSuccess.genTextResult (fixAmbiguousPrompt (lit "12?.5") clientW.lastRead) =
      Except.ok (lit "128.5") ∧
    (lit "128.5").contains '?' = false ∧
    (ReadGasGuagePic envSuccess clientW).1 =
      Except.ok ⟨lit "128.5", lit "2024-01-01", 5, lit "1.2s"⟩ ∧
    (GasMeterReadResult.mk (lit "128.5") (lit "2024-01-01") 5
        (lit "1.2s")).Read.contains '?' = false :=
  ⟨rfl, by decide, by decide,
   c1_no_marker_on_success envSuccess clientW fileW (lit "12?.5", lit "2024-01-01")
     (lit "128.5") ⟨lit "128.5", lit "2024-01-01", 5, lit "1.2s"⟩
     rfl rfl rfl (by decide) (by decide)⟩

/-- Counterexample to C3 as stated: extraction returns `"?a"` — it contains
the marker, yet zero resolution calls are issued, because the alphabet
validation rejects the string before the inference call. -/
theorem c3_counterexample :
    envBadChar.genDataResult = Except.ok (lit "?a", lit "d") ∧
    (lit "?a").contains '?' = true ∧
    List.filter isGenTextEv (ReadGasGuagePic envBadChar clientW).2.2 = [] := by
  decide

/-- Claim C3 (amended): if the structured reading contains `?` and every
character is in the allowed alphabet, exactly one resolution call is made,
whose prompt embeds the ambiguous string verbatim and the pre-run
`lastRead`; if the reading contains no `?`, zero resolution calls are
made.  (As stated the claim fails when the reading has a `?` next to an
out-of-alphabet character: validation then stops the call.) -/
theorem c3_resolution_trigger (env : Env) (c : Client) (f : FileRef) (rd : Str × Str)
    (hu : env.uploadResult = Except.ok f)
    (hd : env.genDataResult = Except.ok rd) :
    (rd.1.contains '?' = true → containsOnly rd.1 allowedChars = true →
       List.filter isGenTextEv (ReadGasGuagePic env c).2.2 =
         [Event.genText (fixAmbiguousPrompt rd.1 c.lastRead)]) ∧
    (rd.1.contains '?' = false →
       List.filter isGenTextEv (ReadGasGuagePic env c).2.2 = []) := by
  constructor
  · intro hq hv
    cases ht : env.genTextResult (fixAmbiguousPrompt rd.1 c.lastRead) with
    | error e =>
      rw [run_genErr env c f rd e hu hd hq hv ht]
      simp [isGenTextEv]
    | ok t =>
      rw [run_resolved env c f rd t hu hd hq hv ht]
      simp [isGenTextEv]
  · intro hq
    rw [run_noq env c f rd hu hd hq]
    simp [isGenTextEv]

/-- Witness for C3: on the spec's scenario run the resolution-call trace is
exactly one call carrying the ambiguous string and the prior reading. -/
theorem c3_witness :
    (lit "12?.5").contains '?' = true ∧
    containsOnly (lit "12?.5") allowedChars = true ∧
    List.filter isGenTextEv (ReadGasGuagePic envSuccess clientW).2.2 =
      [Event.genText (fixAmbiguousPrompt (lit "12?.5") clientW.lastRead)] :=
  ⟨by decide, by decide,
   (c3_resolution_trigger envSuccess clientW fileW (lit "12?.5", lit "2024-01-01")
      rfl rfl).1 (by decide) (by decide)⟩

/-- Claim C4: on every successful run the returned client equals the input
client with only `lastRead` replaced by the final reading, the trace holds
exactly one `lastRead` write carrying that final reading, and every
resolution prompt issued during the run used the pre-run `lastRead`. -/
theorem c4_lastRead_update (env : Env) (c : Client) (f : FileRef) (rd : Str × Str)
    (r : GasMeterReadResult) (c2 : Client) (tr : List Event)
    (hu : env.uploadResult = Except.ok f)
    (hd : env.genDataResult = Except.ok rd)
    (hrun : ReadGasGuagePic env c = (Except.ok r, c2, tr)) :
    c2 = ⟨c.model, c.systemPrompt, c.promptForImg, r.Read⟩ ∧
    List.filter isSetEv tr = [Event.setLastRead r.Read] ∧
    (∀ p, Event.genText p ∈ tr → p = fixAmbiguousPrompt rd.1 c.lastRead) := by
  cases hq : rd.1.contains '?' with
  | false =>
    rw [run_noq env c f rd hu hd hq] at hrun
    simp only [Prod.mk.injEq, Except.ok.injEq] at hrun
    obtain ⟨h1, h2, h3⟩ := hrun
    subst h1; subst h2; subst h3
    refine ⟨rfl, by simp [isSetEv], ?_⟩
    intro p hp
    simp at hp
  | true =>
    cases hv : containsOnly rd.1 allowedChars with
    | false =>
      rw [run_invalid env c f rd hu hd hq hv] at hrun
      simp at hrun
    | true =>
      cases ht : env.genTextResult (fixAmbiguousPrompt rd.1 c.lastRead) with
      | error e =>
        rw [run_genErr env c f rd e hu hd hq hv ht] at hrun
        simp at hrun
      | ok t =>
        rw [run_resolved env c f rd t hu hd hq hv ht] at hrun
        simp only [Prod.mk.injEq, Except.ok.injEq] at hrun
        obtain ⟨h1, h2, h3⟩ := hrun
        subst h1; subst h2; subst h3
        refine ⟨rfl, by simp [isSetEv], ?_⟩
        intro p hp
        simp at hp
        exact hp

set_option maxRecDepth 20000 in
/-- Witness for C4 on the spec's scenario run: the client's `lastRead`
becomes `"128.5"`, written once, and the resolution prompt used the
pre-run value `"123.4"`. -/
theorem c4_witness :
    ReadGasGuagePic envSuccess clientW =
      (Except.ok ⟨lit "128.5", lit "2024-01-01", 5, lit "1.2s"⟩,
       ⟨lit "gemini", lit "sys", lit "img", lit "128.5"⟩,
       [Event.upload, Event.genData (lit "sys") (lit "uri://gauge1") (lit "img"),
        Event.genText (fixAmbiguousPrompt (lit "12?.5") (lit "123.4")),
        Event.setLastRead (lit "128.5"), Event.fileDelete (lit "files/gauge1")]) ∧
    (Client.mk (lit "gemini") (lit "sys") (lit "img") (lit "128.5") =
       ⟨clientW.model, clientW.systemPrompt, clientW.promptForImg,
        (GasMeterReadResult.mk (lit "128.5") (lit "2024-01-01") 5 (lit "1.2s")).Read⟩ ∧
     List.filter isSetEv
        [Event.upload, Event.genData (lit "sys") (lit "uri://gauge1") (lit "img"),
         Event.genText (fixAmbiguousPrompt (lit "12?.5") (lit "123.4")),
         Event.setLastRead (lit "128.5"), Event.fileDelete (lit "files/gauge1")] =
       [Event.setLastRead
          (GasMeterReadResult.mk (lit "128.5") (lit "2024-01-01") 5 (lit "1.2s")).Read] ∧
     (∀ p, Event.genText p ∈
         [Event.upload, Event.genData (lit "sys") (lit "uri://gauge1") (lit "img"),
          Event.genText (fixAmbiguousPrompt (lit "12?.5") (lit "123.4")),
          Event.setLastRead (lit "128.5"), Event.fileDelete (lit "files/gauge1")] →
        p = fixAmbiguousPrompt (lit "12?.5", lit "2024-01-01").1 clientW.lastRead)) :=
  ⟨by decide,
   c4_lastRead_update envSuccess clientW fileW (lit "12?.5", lit "2024-01-01")
     ⟨lit "128.5", lit "2024-01-01", 5, lit "1.2s"⟩
     ⟨lit "gemini", lit "sys", lit "img", lit "128.5"⟩
     [Event.upload, Event.genData (lit "sys") (lit "uri://gauge1") (lit "img"),
      Event.genText (fixAmbiguousPrompt (lit "12?.5") (lit "123.4")),
      Event.setLastRead (lit "128.5"), Event.fileDelete (lit "files/gauge1")]
     rfl rfl (by decide)⟩

/-- Claim C5: whenever the disambiguator fails, the whole extraction fails
with the wrapping error — the ambiguous value is never returned. -/
theorem c5_no_fallback (env : Env) (c : Client) (f : FileRef) (rd : Str × Str) (e : Str)
    (hu : env.uploadResult = Except.ok f)
    (hd : env.genDataResult = Except.ok rd)
    (hq : rd.1.contains '?' = true)
    (hg : (guessAmbiouousDigits env c rd.1).1 = Except.error e) :
    (ReadGasGuagePic env c).1 = Except.error (errGuess e) := by
  rw [run_q_err env c f rd e hu hd hq hg]

/-- Witness for C5: a failing resolution call makes the whole run fail. -/
theorem c5_witness :
    (lit "1?").contains '?' = true ∧
    (guessAmbiouousDigits envGenErr clientW (lit "1?")).1 =
      Except.error (errGenerate (lit "boom")) ∧
    (ReadGasGuagePic envGenErr clientW).1 =
      Except.error (errGuess (errGenerate (lit "boom"))) :=
  ⟨by decide, by decide,
   c5_no_fallback envGenErr clientW fileW (lit "1?", lit "d")
     (errGenerate (lit "boom")) rfl rfl (by decide) (by decide)⟩

/-- Claim C6: every failing run leaves the client unchanged and performs no
write to `lastRead`. -/
theorem c6_error_no_mutation (env : Env) (c : Client) (e : Str)
    (h : (ReadGasGuagePic env c).1 = Except.error e) :
    (ReadGasGuagePic env c).2.1 = c ∧
    List.filter isSetEv (ReadGasGuagePic env c).2.2 = [] := by
  cases hu : env.uploadResult with
  | error eu =>
    rw [run_upload_err env c eu hu]
    exact ⟨rfl, by simp [isSetEv]⟩
  | ok f =>
    cases hd : env.genDataResult with
    | error ed =>
      rw [run_data_err env c f ed hu hd]
      exact ⟨rfl, by simp [isSetEv]⟩
    | ok rd =>
      cases hq : rd.1.contains '?' with
      | false =>
        rw [run_noq env c f rd hu hd hq] at h
        simp at h
      | true =>
        cases hv : containsOnly rd.1 allowedChars with
        | false =>
          rw [run_invalid env c f rd hu hd hq hv]
          exact ⟨rfl, by simp [isSetEv]⟩
        | true =>
          cases ht : env.genTextResult (fixAmbiguousPrompt rd.1 c.lastRead) with
          | error ee =>
            rw [run_genErr env c f rd ee hu hd hq hv ht]
            exact ⟨rfl, by simp [isSetEv]⟩
          | ok t =>
            rw [run_resolved env c f rd t hu hd hq hv ht] at h
            simp at h

/-- Witness for C6: a failed upload leaves the client untouched and writes
nothing. -/
theorem c6_witness :
    (ReadGasGuagePic envUploadErr clientW).1 =
      Except.error (errUpload (lit "network down")) ∧
    (ReadGasGuagePic envUploadErr clientW).2.1 = clientW ∧
    List.filter isSetEv (ReadGasGuagePic envUploadErr clientW).2.2 = [] :=
  ⟨by decide,
   (c6_error_no_mutation envUploadErr clientW (errUpload (lit "network down"))
      (by decide)).1,
   (c6_error_no_mutation envUploadErr clientW (errUpload (lit "network down"))
      (by decide)).2⟩

/-- Claim C7: on a successful resolution call the disambiguator returns the
gateway's raw text unchanged, and the extractor installs it into `reading`
verbatim — for any response text whatsoever, with no re-validation. -/
theorem c7_raw_response_verbatim (env : Env) (c : Client) (f : FileRef)
    (rd : Str × Str) (t : Str)
    (hu : env.uploadResult = Except.ok f)
    (hd : env.genDataResult = Except.ok rd)
    (hq : rd.1.contains '?' = true)
    (hv : containsOnly rd.1 allowedChars = true)
    (ht : env.genTextResult (fixAmbiguousPrompt rd.1 c.lastRead) = Except.ok t) :
    (guessAmbiouousDigits env c rd.1).1 = Except.ok t ∧
    (ReadGasGuagePic env c).1 = Except.ok ⟨t, rd.2, env.nowTime, env.elapsedStr⟩ := by
  refine ⟨by rw [guess_ok env c rd.1 t hv ht], ?_⟩
  rw [run_resolved env c f rd t hu hd hq hv ht]

/-- Witness for C7: the gateway answers `" not a number\n"` — spaces,
letters, newline — and that exact string becomes the final reading. -/
theorem c7_witness :
    envRawText.genTextResult (fixAmbiguousPrompt (lit "12?.5") clientW.lastRead) =
      Except.ok (lit " not a number\n") ∧
    (guessAmbiouousDigits envRawText clientW (lit "12?.5")).1 =
      Except.ok (lit " not a number\n") ∧
    (ReadGasGuagePic envRawText clientW).1 =
      Except.ok ⟨lit " not a number\n", lit "d", 5, lit "1s"⟩ :=
  ⟨rfl,
   (c7_raw_response_verbatim envRawText clientW fileW (lit "12?.5", lit "d")
      (lit " not a number\n") rfl rfl (by decide) (by decide) rfl).1,
   (c7_raw_response_verbatim envRawText clientW fileW (lit "12?.5", lit "d")
      (lit " not a number\n") rfl rfl (by decide) (by decide) rfl).2⟩

theorem trace_tail_delete (env : Env) (c : Client) (f : FileRef)
    (hu : env.uploadResult = Except.ok f) :
    ∃ pre, (ReadGasGuagePic env c).2.2 = pre ++ [Event.fileDelete f.name] ∧
      List.filter isDeleteEv pre = [] := by
  cases hd : env.genDataResult with
  | error e =>
    refine ⟨[Event.upload, Event.genData c.systemPrompt f.uri c.promptForImg],
      ?_, by simp [isDeleteEv]⟩
    simp [run_data_err env c f e hu hd]
  | ok rd =>
    cases hq : rd.1.contains '?' with
    | false =>
      refine ⟨[Event.upload, Event.genData c.systemPrompt f.uri c.promptForImg,
        Event.setLastRead rd.1], ?_, by simp [isDeleteEv]⟩
      simp [run_noq env c f rd hu hd hq]
    | true =>
      cases hv : containsOnly rd.1 allowedChars with
      | false =>
        refine ⟨[Event.upload, Event.genData c.systemPrompt f.uri c.promptForImg],
          ?_, by simp [isDeleteEv]⟩
        simp [run_invalid env c f rd hu hd hq hv]
      | true =>
        cases ht : env.genTextResult (fixAmbiguousPrompt rd.1 c.lastRead) with
        | error e =>
          refine ⟨[Event.upload, Event.genData c.systemPrompt f.uri c.promptForImg,
            Event.genText (fixAmbiguousPrompt rd.1 c.lastRead)],
            ?_, by simp [isDeleteEv]⟩
          simp [run_genErr env c f rd e hu hd hq hv ht]
        | ok t =>
          refine ⟨[Event.upload, Event.genData c.systemPrompt f.uri c.promptForImg,
            Event.genText (fixAmbiguousPrompt rd.1 c.lastRead),
            Event.setLastRead t], ?_, by simp [isDeleteEv]⟩
          simp [run_resolved env c f rd t hu hd hq hv ht]

/-- Claim C8: once the upload succeeds, the disposal call on the staged
reference's name appears exactly once in the trace, as its very last
event, on success and on every failure path alike; and the run's outcome
is identical for any two environments that agree on everything except the
disposal call's own result — disposal failure is never propagated. -/
theorem c8_disposal_once (env env2 : Env) (c : Client) (f : FileRef)
    (hu : env.uploadResult = Except.ok f)
    (h1 : env2.uploadResult = env.uploadResult)
    (h2 : env2.genDataResult = env.genDataResult)
    (h3 : env2.genTextResult = env.genTextResult)
    (h4 : env2.elapsedStr = env.elapsedStr)
    (h5 : env2.nowTime = env.nowTime) :
    List.filter isDeleteEv (ReadGasGuagePic env c).2.2 = [Event.fileDelete f.name] ∧
    List.getLast? (ReadGasGuagePic env c).2.2 = some (Event.fileDelete f.name) ∧
    ReadGasGuagePic env2 c = ReadGasGuagePic env c := by
  obtain ⟨pre, hpre, hflt⟩ := trace_tail_delete env c f hu
  refine ⟨?_, ?_, run_congr env env2 c h1 h2 h3 h4 h5⟩
  · rw [hpre, List.filter_append, hflt]
    simp [isDeleteEv]
  · rw [hpre]
    exact List.getLast?_concat pre

/-- Witness for C8: on the scenario run the trace ends with the one
disposal call, and replacing the disposal outcome by a failure changes
nothing in the returned result. -/
theorem c8_witness :
    envSuccess.uploadResult = Except.ok fileW ∧
    List.filter isDeleteEv (ReadGasGuagePic envSuccess clientW).2.2 =
      [Event.fileDelete fileW.name] ∧
    List.getLast? (ReadGasGuagePic envSuccess clientW).2.2 =
      some (Event.fileDelete fileW.name) ∧
    ReadGasGuagePic envDelFail clientW = ReadGasGuagePic envSuccess clientW :=
  ⟨rfl,
   (c8_disposal_once envSuccess envDelFail clientW fileW rfl rfl rfl rfl rfl rfl).1,
   (c8_disposal_once envSuccess envDelFail clientW fileW rfl rfl rfl rfl rfl rfl).2.1,
   (c8_disposal_once envSuccess envDelFail clientW fileW rfl rfl rfl rfl rfl rfl).2.2⟩

/-- Claim C9: disambiguation touches only the `Read` field — on every
successful run the returned `Date` is exactly the date produced by the
structured extraction call, whether or not the resolution step ran. -/
theorem c9_date_unchanged (env : Env) (c : Client) (f : FileRef) (rd : Str × Str)
    (r : GasMeterReadResult)
    (hu : env.uploadResult = Except.ok f)
    (hd : env.genDataResult = Except.ok rd)
    (hr : (ReadGasGuagePic env c).1 = Except.ok r) :
    r.Date = rd.2 := by
  cases hq : rd.1.contains '?' with
  | false =>
    rw [run_noq env c f rd hu hd hq] at hr
    simp only [Except.ok.injEq] at hr
    subst hr
    rfl
  | true =>
    cases hv : containsOnly rd.1 allowedChars with
    | false =>
      rw [run_invalid env c f rd hu hd hq hv] at hr
      simp at hr
    | true =>
      cases ht : env.genTextResult (fixAmbiguousPrompt rd.1 c.lastRead) with
      | error e =>
        rw [run_genErr env c f rd e hu hd hq hv ht] at hr
        simp at hr
      | ok t =>
        rw [run_resolved env c f rd t hu hd hq hv ht] at hr
        simp only [Except.ok.injEq] at hr
        subst hr
        rfl

/-- Witness for C9: on the scenario run (with the resolution step taken)
the returned date is the extraction call's date. -/
theorem c9_witness :
    (ReadGasGuagePic envSuccess clientW).1 =
      Except.ok ⟨lit "128.5", lit "2024-01-01", 5, lit "1.2s"⟩ ∧
    (GasMeterReadResult.mk (lit "128.5") (lit "2024-01-01") 5 (lit "1.2s")).Date =
      lit "2024-01-01" :=
  ⟨by decide,
   c9_date_unchanged envSuccess clientW fileW (lit "12?.5", lit "2024-01-01")
     ⟨lit "128.5", lit "2024-01-01", 5, lit "1.2s"⟩ rfl rfl (by decide)⟩
